import Mathlib

/-!
Verification of the catalog index and query engine of the `jfp` CLI
(crates/jfp). The repository's `src/commands/mod.rs` declares the command
modules (`list`, `search`, `show`, `random`, `categories`, `tags`,
`doctor`); the bodies of those modules are not part of the source tree
available here, so the engine is modelled from the specification's
description of the data model, the catalog index, the query engine and
the validator, and the claims are settled against that model.
-/

namespace Jfp

/-- Modelled from the spec: an Entry record (§3) — the bodies of the
command modules are missing from the tree, so the data model follows the
spec's field list. Display text is modelled as a list of characters so
that substring matching is a statement about character sequences. -/
structure Entry where
  id : String
  title : List Char
  summary : List Char
  categories : List String
  tags : List String
  resource : Option String
deriving Repr, DecidableEq

/-- Modelled from the spec: the immutable Dataset Snapshot (§3) —
entries plus the declared category and tag names, each list in
declaration order. -/
structure Dataset where
  entries : List Entry
  categories : List String
  tags : List String
deriving Repr, DecidableEq

/-- Modelled from the spec: index-construction failure (§7). -/
inductive CatalogError where
  | duplicateId (id : String)
deriving Repr, DecidableEq

/-- Modelled from the spec: query-time failures (§7). -/
inductive QueryError where
  | notFound
  | emptyCandidateSet
deriving Repr, DecidableEq

/-- Modelled from the spec: build the `by_id` association (§4.2): entry
id → Entry, failing with `DuplicateId` when two entries share an id. -/
def buildById : List Entry → Except CatalogError (List (String × Entry))
  | [] => Except.ok []
  | e :: rest =>
    if rest.any (fun e2 => e2.id == e.id) then
      Except.error (CatalogError.duplicateId e.id)
    else
      match buildById rest with
      | Except.ok m => Except.ok ((e.id, e) :: m)
      | Except.error err => Except.error err

/-- Modelled from the spec: `by_category` (§4.2): category name → ordered
list of entry ids referencing it, in dataset order. -/
def byCategory (d : Dataset) (c : String) : List String :=
  (d.entries.filter (fun e => decide (c ∈ e.categories))).map Entry.id

/-- Modelled from the spec: `by_tag` (§4.2): tag name → ordered list of
entry ids referencing it, in dataset order. -/
def byTag (d : Dataset) (t : String) : List String :=
  (d.entries.filter (fun e => decide (t ∈ e.tags))).map Entry.id

/-- Modelled from the spec: the filter-criteria test (§4.3, §9): an entry
matches when it satisfies every supplied filter (AND semantics). -/
def matchesFilter (e : Entry) (c t : Option String) : Bool :=
  (match c with
   | none => true
   | some cn => decide (cn ∈ e.categories))
  &&
  (match t with
   | none => true
   | some tn => decide (tn ∈ e.tags))

/-- Modelled from the spec: the List operation (§4.3): entries in
dataset-declaration order restricted to those matching all supplied
filters. -/
def list (d : Dataset) (c t : Option String) : List Entry :=
  d.entries.filter (fun e => matchesFilter e c t)

/-- Lower-case a character sequence (case-insensitive matching). -/
def lowerStr (s : List Char) : List Char := s.map Char.toLower

/-- Substring test: `needle` occurs contiguously inside `hay`. -/
def containsSub (needle hay : List Char) : Bool := decide (needle <:+: hay)

/-- Blank test: every character of the query is whitespace (also true of
the empty query). -/
def isBlank (q : List Char) : Bool := q.all Char.isWhitespace

/-- Modelled from the spec: the Search match test (§4.3): the query
occurs as a case-insensitive substring of the title or the summary. -/
def matchesQuery (e : Entry) (q : List Char) : Bool :=
  containsSub (lowerStr q) (lowerStr e.title) ||
  containsSub (lowerStr q) (lowerStr e.summary)

/-- Modelled from the spec: the Search operation (§4.3): empty or
whitespace-only query returns the full dataset; otherwise the entries
whose title or summary contains the query, in dataset order. -/
def search (d : Dataset) (q : List Char) : List Entry :=
  if isBlank q then d.entries
  else d.entries.filter (fun e => matchesQuery e q)

/-- Modelled from the spec: the Show operation (§4.3): the entry with
the given id from `by_id`, or `NotFound`. -/
def showEntry (m : List (String × Entry)) (i : String) : Except QueryError Entry :=
  match m.lookup i with
  | some e => Except.ok e
  | none => Except.error QueryError.notFound

/-- Modelled from the spec: uniform selection from the candidate set
(§4.3): index the candidate ordering used by List at `s` modulo its
size; the empty candidate set fails with `EmptyCandidateSet`. -/
def pickUniform (cands : List Entry) (s : Nat) : Except QueryError Entry :=
  match cands with
  | [] => Except.error QueryError.emptyCandidateSet
  | e :: rest => Except.ok ((e :: rest).getD (s % (e :: rest).length) e)

/-- Modelled from the spec: the Random operation (§4.3): draw from the
exact candidate ordering used by List; a supplied seed makes the draw a
deterministic function of seed and candidate set, while an unsupplied
seed uses an ambient entropy value from the environment. -/
def random (d : Dataset) (c t : Option String) (seed : Option Nat)
    (entropy : Nat) : Except QueryError Entry :=
  pickUniform (list d c t) (seed.getD entropy)

/-- Modelled from the spec: the Categories operation (§4.3): declared
category names in declaration order, each paired with the number of
entries referencing it. -/
def categories (d : Dataset) : List (String × Nat) :=
  d.categories.map (fun c => (c, d.entries.countP (fun e => decide (c ∈ e.categories))))

/-- Modelled from the spec: the Tags operation (§4.3): declared tag
names in declaration order, each paired with the number of entries
referencing it. -/
def tags (d : Dataset) : List (String × Nat) :=
  d.tags.map (fun t => (t, d.entries.countP (fun e => decide (t ∈ e.tags))))

/-- Modelled from the spec: finding severities (§4.4). -/
inductive Severity where
  | error
  | warning
deriving Repr, DecidableEq

/-- Modelled from the spec: typed validator findings (§4.4), each
carrying the implicated id(s)/name(s). -/
inductive Finding where
  | danglingCategory (entryId cat : String)
  | danglingTag (entryId tag : String)
  | duplicateId (id : String)
  | orphanCategory (cat : String)
  | orphanTag (tag : String)
deriving Repr, DecidableEq

/-- Severity carried by each finding: `error` for referential breaks and
duplicate ids, `warning` for orphan declarations (§4.4). -/
def Finding.severity : Finding → Severity
  | Finding.danglingCategory _ _ => Severity.error
  | Finding.danglingTag _ _ => Severity.error
  | Finding.duplicateId _ => Severity.error
  | Finding.orphanCategory _ => Severity.warning
  | Finding.orphanTag _ => Severity.warning

/-- Whether a finding reports a referential break or a duplicate id (as
opposed to an orphan declaration). -/
def Finding.isBreakage : Finding → Bool
  | Finding.danglingCategory _ _ => true
  | Finding.danglingTag _ _ => true
  | Finding.duplicateId _ => true
  | Finding.orphanCategory _ => false
  | Finding.orphanTag _ => false

/-- Modelled from the spec: one finding per category reference that does
not resolve to a declared category (§4.4), walking entries in order. -/
def danglingCategoryFindings (d : Dataset) : List Finding :=
  d.entries.flatMap (fun e =>
    (e.categories.filter (fun c => !decide (c ∈ d.categories))).map
      (fun c => Finding.danglingCategory e.id c))

/-- Modelled from the spec: one finding per tag reference that does not
resolve to a declared tag (§4.4). -/
def danglingTagFindings (d : Dataset) : List Finding :=
  d.entries.flatMap (fun e =>
    (e.tags.filter (fun t => !decide (t ∈ d.tags))).map
      (fun t => Finding.danglingTag e.id t))

/-- Modelled from the spec: one finding per entry id declared more than
once (§4.4). -/
def duplicateIdFindings (d : Dataset) : List Finding :=
  ((d.entries.map Entry.id).dedup.filter
      (fun i => 2 ≤ (d.entries.map Entry.id).count i)).map
    Finding.duplicateId

/-- Modelled from the spec: one warning per declared category referenced
by no entry (§4.4). -/
def orphanCategoryFindings (d : Dataset) : List Finding :=
  (d.categories.filter (fun c => !d.entries.any (fun e => decide (c ∈ e.categories)))).map
    Finding.orphanCategory

/-- Modelled from the spec: one warning per declared tag referenced by
no entry (§4.4). -/
def orphanTagFindings (d : Dataset) : List Finding :=
  (d.tags.filter (fun t => !d.entries.any (fun e => decide (t ∈ e.tags)))).map
    Finding.orphanTag

/-- Modelled from the spec: the Validator (§4.4): walk the snapshot and
accumulate every finding in one pass without short-circuiting. -/
def doctor (d : Dataset) : List Finding :=
  danglingCategoryFindings d ++ danglingTagFindings d ++
    duplicateIdFindings d ++ orphanCategoryFindings d ++ orphanTagFindings d

/-- The Catalog Index: the snapshot together with the `by_id` map; the
derived `by_category`/`by_tag` views are the functions above. -/
structure Index where
  snapshot : Dataset
  byIdMap : List (String × Entry)
deriving Repr, DecidableEq

/-- Modelled from the spec: index construction (§4.2), failing with
`DuplicateId` on a repeated entry id. -/
def buildIndex (d : Dataset) : Except CatalogError Index :=
  match buildById d.entries with
  | Except.ok m => Except.ok { snapshot := d, byIdMap := m }
  | Except.error err => Except.error err

/-- Modelled from the spec: List as a state transformer over the index
(§4.3, §5) — result paired with the index handed back to the caller. -/
def listOp (ix : Index) (c t : Option String) : List Entry × Index :=
  (list ix.snapshot c t, ix)

/-- Modelled from the spec: Search as a state transformer. -/
def searchOp (ix : Index) (q : List Char) : List Entry × Index :=
  (search ix.snapshot q, ix)

/-- Modelled from the spec: Show as a state transformer. -/
def showOp (ix : Index) (i : String) : Except QueryError Entry × Index :=
  (showEntry ix.byIdMap i, ix)

/-- Modelled from the spec: Random as a state transformer. -/
def randomOp (ix : Index) (c t : Option String) (seed : Option Nat)
    (entropy : Nat) : Except QueryError Entry × Index :=
  (random ix.snapshot c t seed entropy, ix)

/-- Modelled from the spec: Categories as a state transformer. -/
def categoriesOp (ix : Index) : List (String × Nat) × Index :=
  (categories ix.snapshot, ix)

/-- Modelled from the spec: Tags as a state transformer. -/
def tagsOp (ix : Index) : List (String × Nat) × Index :=
  (tags ix.snapshot, ix)

/-- Sample entry A of the spec's example scenario (§8). -/
def eA : Entry :=
  { id := "A", title := ['A', 'l', 'p', 'h', 'a'], summary := [],
    categories := ["sci"], tags := ["fun"], resource := none }

/-- Sample entry B of the spec's example scenario (§8). -/
def eB : Entry :=
  { id := "B", title := ['B', 'e', 't', 'a'], summary := [],
    categories := ["hist"], tags := [], resource := none }

/-- Sample entry C of the spec's example scenario (§8). -/
def eC : Entry :=
  { id := "C", title := ['G', 'a', 'm', 'm', 'a'], summary := [],
    categories := ["sci"], tags := ["fun", "dark"], resource := none }

/-- The spec's example dataset (§8): three entries, categories sci/hist,
tags fun/dark. -/
def dsExample : Dataset :=
  { entries := [eA, eB, eC], categories := ["sci", "hist"],
    tags := ["fun", "dark"] }

/-- A dataset with a repeated entry id. -/
def dsDup : Dataset :=
  { entries := [eA, { eB with id := "A" }], categories := ["sci", "hist"],
    tags := ["fun"] }

/-- A dataset whose two entries reference two different undeclared
categories. -/
def dsTwoBad : Dataset :=
  { entries :=
      [{ id := "X", title := [], summary := [], categories := ["ghost1"],
         tags := [], resource := none },
       { id := "Y", title := [], summary := [], categories := ["ghost2"],
         tags := [], resource := none }],
    categories := [], tags := [] }

/-- The index built over the example dataset. -/
def ixExample : Index :=
  { snapshot := dsExample,
    byIdMap := [("A", eA), ("B", eB), ("C", eC)] }

/-- Membership in a back-set: when entry ids are pairwise distinct, an
entry's id lies in `byCategory d c` exactly when the entry references
category `c`. -/
theorem mem_byCategory_iff (d : Dataset)
    (hnd : (d.entries.map Entry.id).Nodup) {e : Entry}
    (he : e ∈ d.entries) (c : String) :
    e.id ∈ byCategory d c ↔ c ∈ e.categories := by
  unfold byCategory
  constructor
  · intro hmem
    rcases List.mem_map.mp hmem with ⟨e', he', hid⟩
    rcases List.mem_filter.mp he' with ⟨he'm, hp⟩
    have : e' = e := List.inj_on_of_nodup_map hnd he'm he hid
    subst this
    exact of_decide_eq_true hp
  · intro hc
    exact List.mem_map_of_mem _
      (List.mem_filter.mpr ⟨he, decide_eq_true hc⟩)

/-- Membership in a back-set: when entry ids are pairwise distinct, an
entry's id lies in `byTag d t` exactly when the entry references tag
`t`. -/
theorem mem_byTag_iff (d : Dataset)
    (hnd : (d.entries.map Entry.id).Nodup) {e : Entry}
    (he : e ∈ d.entries) (t : String) :
    e.id ∈ byTag d t ↔ t ∈ e.tags := by
  unfold byTag
  constructor
  · intro hmem
    rcases List.mem_map.mp hmem with ⟨e', he', hid⟩
    rcases List.mem_filter.mp he' with ⟨he'm, hp⟩
    have : e' = e := List.inj_on_of_nodup_map hnd he'm he hid
    subst this
    exact of_decide_eq_true hp
  · intro ht
    exact List.mem_map_of_mem _
      (List.mem_filter.mpr ⟨he, decide_eq_true ht⟩)

/-- Claim C1: for every category name C and tag name T, List with both
filters returns exactly the entries whose id is present in both
`by_category[C]` and `by_tag[T]` (AND semantics), in dataset order. -/
theorem list_filter_and_semantics (d : Dataset)
    (hnd : (d.entries.map Entry.id).Nodup) (C T : String) :
    list d (some C) (some T) =
      d.entries.filter
        (fun e => decide (e.id ∈ byCategory d C) && decide (e.id ∈ byTag d T)) := by
  unfold list
  apply List.filter_congr
  intro e he
  have hc : decide (C ∈ e.categories) = decide (e.id ∈ byCategory d C) :=
    decide_eq_decide.mpr (mem_byCategory_iff d hnd he C).symm
  have ht : decide (T ∈ e.tags) = decide (e.id ∈ byTag d T) :=
    decide_eq_decide.mpr (mem_byTag_iff d hnd he T).symm
  simp only [matchesFilter, hc, ht]

/-- Witness for C1 at the spec's example dataset with C = sci and
T = fun. -/
theorem list_filter_and_semantics_witness :
    (dsExample.entries.map Entry.id).Nodup ∧
      list dsExample (some "sci") (some "fun") =
        dsExample.entries.filter
          (fun e =>
            decide (e.id ∈ byCategory dsExample "sci") &&
              decide (e.id ∈ byTag dsExample "fun")) :=
  ⟨by decide, list_filter_and_semantics dsExample (by decide) "sci" "fun"⟩

/-- An `any`-scan for a repeated id is false exactly when the id is
absent from the remaining ids. -/
theorem any_id_eq_false {rest : List Entry} {e : Entry} :
    (rest.any (fun e2 => e2.id == e.id) = false) ↔
      e.id ∉ rest.map Entry.id := by
  rw [← Bool.not_eq_true, List.any_eq_true]
  constructor
  · intro h hmem
    rcases List.mem_map.mp hmem with ⟨e2, he2, hid⟩
    exact h ⟨e2, he2, beq_iff_eq.mpr hid⟩
  · intro h ⟨e2, he2, hbeq⟩
    exact h (List.mem_map.mpr ⟨e2, he2, beq_iff_eq.mp hbeq⟩)

/-- On a list of entries with pairwise distinct ids, `buildById`
succeeds and returns the id-keyed association in order. -/
theorem buildById_ok_of_nodup :
    ∀ l : List Entry, (l.map Entry.id).Nodup →
      buildById l = Except.ok (l.map (fun e => (e.id, e)))
  | [], _ => rfl
  | e :: rest, h => by
    rw [List.map_cons, List.nodup_cons] at h
    have hany : rest.any (fun e2 => e2.id == e.id) = false :=
      any_id_eq_false.mpr h.1
    unfold buildById
    rw [hany, buildById_ok_of_nodup rest h.2]
    rfl

/-- On a list of entries with a repeated id, `buildById` fails with a
`duplicateId` error. -/
theorem buildById_error_of_not_nodup :
    ∀ l : List Entry, ¬ (l.map Entry.id).Nodup →
      ∃ i, buildById l = Except.error (CatalogError.duplicateId i)
  | [], h => absurd (List.nodup_nil : ([] : List String).Nodup) (by simp at h)
  | e :: rest, h => by
    rw [List.map_cons, List.nodup_cons] at h
    unfold buildById
    by_cases hany : rest.any (fun e2 => e2.id == e.id) = true
    · exact ⟨e.id, by rw [hany]; rfl⟩
    · have hfalse : rest.any (fun e2 => e2.id == e.id) = false :=
        Bool.eq_false_iff.mpr hany
      have hnotmem : e.id ∉ rest.map Entry.id := any_id_eq_false.mp hfalse
      have hrest : ¬ (rest.map Entry.id).Nodup := by
        intro hnd
        exact h ⟨hnotmem, hnd⟩
      rcases buildById_error_of_not_nodup rest hrest with ⟨i, herr⟩
      refine ⟨i, ?_⟩
      rw [hfalse, herr]
      rfl

/-- Claim C2: with pairwise distinct ids, Catalog Index construction
succeeds and `by_id` holds exactly one pair per entry; with a repeated
id it fails with `DuplicateId`. -/
theorem index_uniqueness (d : Dataset) :
    ((d.entries.map Entry.id).Nodup →
      ∃ ix, buildIndex d = Except.ok ix ∧
        ix.byIdMap.length = d.entries.length) ∧
    (¬ (d.entries.map Entry.id).Nodup →
      ∃ i, buildIndex d = Except.error (CatalogError.duplicateId i)) := by
  constructor
  · intro hnd
    refine ⟨{ snapshot := d, byIdMap := d.entries.map (fun e => (e.id, e)) }, ?_, ?_⟩
    · unfold buildIndex
      rw [buildById_ok_of_nodup d.entries hnd]
    · exact List.length_map _ _
  · intro hnd
    rcases buildById_error_of_not_nodup d.entries hnd with ⟨i, herr⟩
    refine ⟨i, ?_⟩
    unfold buildIndex
    rw [herr]

/-- Witness for C2: the example dataset builds an index of size three,
and the duplicated-id dataset fails with `DuplicateId`. -/
theorem index_uniqueness_witness :
    (∃ ix, buildIndex dsExample = Except.ok ix ∧
      ix.byIdMap.length = dsExample.entries.length) ∧
    (∃ i, buildIndex dsDup = Except.error (CatalogError.duplicateId i)) :=
  ⟨(index_uniqueness dsExample).1 (by decide),
   (index_uniqueness dsDup).2 (by decide)⟩

/-- Claim C3: every dataset entry is included in the result of Search
at any non-empty substring of its title, and Search at the empty query
returns the same sequence as List with no filters. -/
theorem search_substring_law (d : Dataset) :
    (∀ e ∈ d.entries, ∀ S : List Char, S ≠ [] → S <:+: e.title →
      e ∈ search d S) ∧
    search d ([] : List Char) = list d none none := by
  constructor
  · intro e he S _ hsub
    unfold search
    by_cases hb : isBlank S = true
    · rw [if_pos hb]
      exact he
    · rw [if_neg hb]
      refine List.mem_filter.mpr ⟨he, ?_⟩
      have htitle : lowerStr S <:+: lowerStr e.title :=
        List.IsInfix.map Char.toLower hsub
      have hcs : containsSub (lowerStr S) (lowerStr e.title) = true :=
        decide_eq_true htitle
      unfold matchesQuery
      rw [hcs, Bool.true_or]
  · unfold search isBlank list matchesFilter
    simp

/-- Witness for C3: the substring lp of the title Alpha finds entry A in
the example dataset, and the empty query agrees with unfiltered List. -/
theorem search_substring_law_witness :
    eA ∈ search dsExample ['l', 'p'] ∧
      search dsExample ([] : List Char) = list dsExample none none :=
  ⟨(search_substring_law dsExample).1 eA (by decide) ['l', 'p']
      (by decide) (by decide),
   (search_substring_law dsExample).2⟩

/-- A successful `buildById` returns the id-keyed association of the
entry list, in order. -/
theorem buildById_ok_map :
    ∀ {l : List Entry} {m : List (String × Entry)},
      buildById l = Except.ok m → m = l.map (fun e => (e.id, e))
  | [], m, h => by
    simpa [buildById] using h.symm
  | e :: rest, m, h => by
    unfold buildById at h
    by_cases hany : rest.any (fun e2 => e2.id == e.id) = true
    · rw [hany] at h
      exact absurd h (by simp)
    · rw [Bool.eq_false_iff.mpr hany, if_neg Bool.false_ne_true] at h
      cases hrest : buildById rest with
      | ok m' =>
        rw [hrest] at h
        cases h
        rw [List.map_cons, buildById_ok_map hrest]
      | error err =>
        rw [hrest] at h
        exact absurd h (by simp)

/-- A successful `buildById` certifies that the entry ids are pairwise
distinct. -/
theorem buildById_ok_nodup :
    ∀ {l : List Entry} {m : List (String × Entry)},
      buildById l = Except.ok m → (l.map Entry.id).Nodup
  | [], m, _ => by simp
  | e :: rest, m, h => by
    unfold buildById at h
    by_cases hany : rest.any (fun e2 => e2.id == e.id) = true
    · rw [hany] at h
      exact absurd h (by simp)
    · have hfalse : rest.any (fun e2 => e2.id == e.id) = false :=
        Bool.eq_false_iff.mpr hany
      rw [hfalse, if_neg Bool.false_ne_true] at h
      cases hrest : buildById rest with
      | ok m' =>
        rw [List.map_cons, List.nodup_cons]
        exact ⟨any_id_eq_false.mp hfalse, buildById_ok_nodup hrest⟩
      | error err =>
        rw [hrest] at h
        exact absurd h (by simp)

/-- Looking up an id in the id-keyed association finds the entry that
declares it, given pairwise distinct ids. -/
theorem lookup_map_id_found :
    ∀ {l : List Entry}, (l.map Entry.id).Nodup →
      ∀ {e : Entry}, e ∈ l → ∀ {i : String}, e.id = i →
        List.lookup i (l.map (fun e => (e.id, e))) = some e
  | [], _, e, he, _, _ => absurd he (List.not_mem_nil e)
  | a :: rest, hnd, e, he, i, hi => by
    rw [List.map_cons, List.nodup_cons] at hnd
    rw [List.map_cons, List.lookup_cons]
    rcases List.mem_cons.mp he with rfl | hrest
    · rw [show (i == e.id) = true from beq_iff_eq.mpr hi.symm]
    · have hne : (i == a.id) = false := by
        refine beq_eq_false_iff_ne.mpr ?_
        intro hia
        exact hnd.1 (hia ▸ hi ▸ List.mem_map_of_mem Entry.id hrest)
      rw [hne]
      exact lookup_map_id_found hnd.2 hrest hi

/-- Looking up an id declared by no entry in the id-keyed association
finds nothing. -/
theorem lookup_map_id_absent :
    ∀ {l : List Entry} {i : String}, (∀ e ∈ l, e.id ≠ i) →
      List.lookup i (l.map (fun e => (e.id, e))) = none
  | [], _, _ => rfl
  | a :: rest, i, h => by
    rw [List.map_cons, List.lookup_cons]
    have hne : (i == a.id) = false :=
      beq_eq_false_iff_ne.mpr (fun hia => h a (List.mem_cons_self a rest) hia.symm)
    rw [hne]
    exact lookup_map_id_absent (fun e he => h e (List.mem_cons_of_mem a he))

/-- Claim C4: over a successfully built index, Show returns the unique
entry bearing the requested id, and returns the ordinary `NotFound`
result when no entry bears it. -/
theorem show_found_or_notFound (d : Dataset) (ix : Index)
    (hix : buildIndex d = Except.ok ix) (i : String) :
    (∀ e ∈ d.entries, e.id = i →
      showEntry ix.byIdMap i = Except.ok e) ∧
    ((∀ e ∈ d.entries, e.id ≠ i) →
      showEntry ix.byIdMap i = Except.error QueryError.notFound) := by
  have hok : buildById d.entries = Except.ok ix.byIdMap := by
    unfold buildIndex at hix
    cases hb : buildById d.entries with
    | ok m => rw [hb] at hix; cases hix; rfl
    | error err => rw [hb] at hix; exact absurd hix (by simp)
  have hmap : ix.byIdMap = d.entries.map (fun e => (e.id, e)) :=
    buildById_ok_map hok
  have hnd : (d.entries.map Entry.id).Nodup := buildById_ok_nodup hok
  constructor
  · intro e he hi
    unfold showEntry
    rw [hmap, lookup_map_id_found hnd he hi]
  · intro habs
    unfold showEntry
    rw [hmap, lookup_map_id_absent habs]

/-- Witness for C4 at the example dataset: Show of B finds entry B and
Show of Z reports `NotFound`. -/
theorem show_found_or_notFound_witness :
    showEntry ixExample.byIdMap "B" = Except.ok eB ∧
      showEntry ixExample.byIdMap "Z" = Except.error QueryError.notFound :=
  ⟨(show_found_or_notFound dsExample ixExample rfl "B").1 eB
      (by decide) (by decide),
   (show_found_or_notFound dsExample ixExample rfl "Z").2 (by decide)⟩

/-- Claim C5: when the filter matches zero entries, Random fails with
`EmptyCandidateSet` for every seed, supplied or not, and never returns
an entry. -/
theorem random_empty_contract (d : Dataset) (c t : Option String)
    (h : list d c t = []) (seed : Option Nat) (entropy : Nat) :
    random d c t seed entropy = Except.error QueryError.emptyCandidateSet := by
  unfold random
  rw [h]
  rfl

/-- Witness for C5: a category filter matching no entry of the example
dataset makes Random fail, here at seed 5 and entropy 7. -/
theorem random_empty_contract_witness :
    list dsExample (some "nope") none = [] ∧
      random dsExample (some "nope") none (some 5) 7 =
        Except.error QueryError.emptyCandidateSet :=
  ⟨by decide, random_empty_contract dsExample (some "nope") none (by decide)
      (some 5) 7⟩

/-- Claim C6: with a supplied seed, Random is a deterministic function
of the seed and the candidate set: two invocations over the same
candidate set return the same entry, whatever ambient entropy each
invocation carries. -/
theorem random_seed_deterministic (d₁ d₂ : Dataset)
    (c₁ t₁ c₂ t₂ : Option String)
    (h : list d₁ c₁ t₁ = list d₂ c₂ t₂) (s : Nat) (n₁ n₂ : Nat) :
    random d₁ c₁ t₁ (some s) n₁ = random d₂ c₂ t₂ (some s) n₂ := by
  unfold random
  rw [h, Option.getD_some, Option.getD_some]

/-- Witness for C6: two invocations at seed 5 over the sci filter of the
example dataset, with different ambient entropy, agree. -/
theorem random_seed_deterministic_witness :
    list dsExample (some "sci") none = list dsExample (some "sci") none ∧
      random dsExample (some "sci") none (some 5) 3 =
        random dsExample (some "sci") none (some 5) 99 :=
  ⟨rfl, random_seed_deterministic dsExample dsExample (some "sci") none
      (some "sci") none rfl 5 3 99⟩

/-- Dangling-category findings carry severity `error`. -/
theorem danglingCategory_severity {d : Dataset} {f : Finding}
    (hf : f ∈ danglingCategoryFindings d) : f.severity = Severity.error := by
  rcases List.mem_flatMap.mp hf with ⟨e, _, hfe⟩
  rcases List.mem_map.mp hfe with ⟨c, _, rfl⟩
  rfl

/-- Dangling-tag findings carry severity `error`. -/
theorem danglingTag_severity {d : Dataset} {f : Finding}
    (hf : f ∈ danglingTagFindings d) : f.severity = Severity.error := by
  rcases List.mem_flatMap.mp hf with ⟨e, _, hfe⟩
  rcases List.mem_map.mp hfe with ⟨t, _, rfl⟩
  rfl

/-- Duplicate-id findings carry severity `error`. -/
theorem duplicateId_severity {d : Dataset} {f : Finding}
    (hf : f ∈ duplicateIdFindings d) : f.severity = Severity.error := by
  rcases List.mem_map.mp hf with ⟨i, _, rfl⟩
  rfl

/-- Orphan-category findings carry severity `warning`. -/
theorem orphanCategory_severity {d : Dataset} {f : Finding}
    (hf : f ∈ orphanCategoryFindings d) : f.severity = Severity.warning := by
  rcases List.mem_map.mp hf with ⟨c, _, rfl⟩
  rfl

/-- Orphan-tag findings carry severity `warning`. -/
theorem orphanTag_severity {d : Dataset} {f : Finding}
    (hf : f ∈ orphanTagFindings d) : f.severity = Severity.warning := by
  rcases List.mem_map.mp hf with ⟨t, _, rfl⟩
  rfl

/-- The number of `Error` findings in a doctor report is the number of
dangling category references plus dangling tag references plus
duplicated ids. -/
theorem doctor_error_count (d : Dataset) :
    ((doctor d).filter (fun f => f.severity == Severity.error)).length =
      (danglingCategoryFindings d).length + (danglingTagFindings d).length +
        (duplicateIdFindings d).length := by
  have h1 : (danglingCategoryFindings d).filter
      (fun f => f.severity == Severity.error) = danglingCategoryFindings d :=
    List.filter_eq_self.mpr (fun f hf => by
      rw [danglingCategory_severity hf]; rfl)
  have h2 : (danglingTagFindings d).filter
      (fun f => f.severity == Severity.error) = danglingTagFindings d :=
    List.filter_eq_self.mpr (fun f hf => by
      rw [danglingTag_severity hf]; rfl)
  have h3 : (duplicateIdFindings d).filter
      (fun f => f.severity == Severity.error) = duplicateIdFindings d :=
    List.filter_eq_self.mpr (fun f hf => by
      rw [duplicateId_severity hf]; rfl)
  have h4 : (orphanCategoryFindings d).filter
      (fun f => f.severity == Severity.error) = [] :=
    List.filter_eq_nil_iff.mpr (fun f hf => by
      rw [orphanCategory_severity hf]; simp)
  have h5 : (orphanTagFindings d).filter
      (fun f => f.severity == Severity.error) = [] :=
    List.filter_eq_nil_iff.mpr (fun f hf => by
      rw [orphanTag_severity hf]; simp)
  unfold doctor
  rw [List.filter_append, List.filter_append, List.filter_append,
    List.filter_append, h1, h2, h3, h4, h5]
  simp [List.length_append]
  omega

/-- Claim C7: the validator accumulates: on a dataset carrying exactly
two bad category references, no bad tag reference and no duplicated id,
the doctor report contains exactly two `Error` findings. -/
theorem validator_two_errors (d : Dataset)
    (hcat : (d.entries.map (fun e =>
        (e.categories.filter (fun c => !decide (c ∈ d.categories))).length)).sum = 2)
    (htag : ∀ e ∈ d.entries, ∀ t ∈ e.tags, t ∈ d.tags)
    (hid : (d.entries.map Entry.id).Nodup) :
    ((doctor d).filter (fun f => f.severity == Severity.error)).length = 2 := by
  have hlen : (danglingCategoryFindings d).length =
      (d.entries.map (fun e =>
        (e.categories.filter (fun c => !decide (c ∈ d.categories))).length)).sum := by
    unfold danglingCategoryFindings
    rw [List.length_flatMap]
    congr 1
    apply List.map_congr_left
    intro e _
    simp [List.length_map]
  have h2 : danglingTagFindings d = [] := by
    unfold danglingTagFindings
    rw [List.flatMap_eq_nil_iff]
    intro e he
    rw [List.map_eq_nil_iff, List.filter_eq_nil_iff]
    intro t ht
    simp [htag e he t ht]
  have h3 : duplicateIdFindings d = [] := by
    unfold duplicateIdFindings
    rw [List.map_eq_nil_iff, List.filter_eq_nil_iff]
    intro i _
    have := List.nodup_iff_count_le_one.mp hid i
    simp
    omega
  rw [doctor_error_count, hlen, hcat, h2, h3]
  simp

/-- Witness for C7: the two-bad-references dataset produces exactly two
`Error` findings. -/
theorem validator_two_errors_witness :
    (dsTwoBad.entries.map (fun e =>
        (e.categories.filter (fun c => !decide (c ∈ dsTwoBad.categories))).length)).sum = 2 ∧
      ((doctor dsTwoBad).filter
          (fun f => f.severity == Severity.error)).length = 2 :=
  ⟨by decide, validator_two_errors dsTwoBad (by decide) (by decide) (by decide)⟩

/-- Claim C8: Categories and Tags return the declared names in
declaration order, each paired with the size of its back-set — the
length of its `by_category` (resp. `by_tag`) entry-id list. -/
theorem categories_tags_backsets (d : Dataset) :
    categories d = d.categories.map (fun c => (c, (byCategory d c).length)) ∧
      tags d = d.tags.map (fun t => (t, (byTag d t).length)) := by
  constructor
  · unfold categories byCategory
    simp [List.countP_eq_length_filter, List.length_map]
  · unfold tags byTag
    simp [List.countP_eq_length_filter, List.length_map]

/-- Claim C9: every Query Engine operation is a pure function of the
index and its explicit parameters: each state-transformer form hands the
index back unchanged, and its result is the pure function of the
snapshot and the parameters. -/
theorem engine_operations_pure (ix : Index) (c t : Option String)
    (q : List Char) (i : String) (seed : Option Nat) (entropy : Nat) :
    listOp ix c t = (list ix.snapshot c t, ix) ∧
      searchOp ix q = (search ix.snapshot q, ix) ∧
      showOp ix i = (showEntry ix.byIdMap i, ix) ∧
      randomOp ix c t seed entropy = (random ix.snapshot c t seed entropy, ix) ∧
      categoriesOp ix = (categories ix.snapshot, ix) ∧
      tagsOp ix = (tags ix.snapshot, ix) :=
  ⟨rfl, rfl, rfl, rfl, rfl, rfl⟩

/-- The dangling-category pass produces no finding exactly when every
category reference resolves. -/
theorem danglingCategoryFindings_eq_nil (d : Dataset) :
    danglingCategoryFindings d = [] ↔
      ∀ e ∈ d.entries, ∀ c ∈ e.categories, c ∈ d.categories := by
  unfold danglingCategoryFindings
  simp [List.flatMap_eq_nil_iff, List.filter_eq_nil_iff]

/-- The dangling-tag pass produces no finding exactly when every tag
reference resolves. -/
theorem danglingTagFindings_eq_nil (d : Dataset) :
    danglingTagFindings d = [] ↔
      ∀ e ∈ d.entries, ∀ t ∈ e.tags, t ∈ d.tags := by
  unfold danglingTagFindings
  simp [List.flatMap_eq_nil_iff, List.filter_eq_nil_iff]

/-- The duplicate-id pass produces no finding exactly when the entry
ids are pairwise distinct. -/
theorem duplicateIdFindings_eq_nil (d : Dataset) :
    duplicateIdFindings d = [] ↔ (d.entries.map Entry.id).Nodup := by
  unfold duplicateIdFindings
  rw [List.map_eq_nil_iff, List.filter_eq_nil_iff]
  constructor
  · intro h
    rw [List.nodup_iff_count_le_one]
    intro a
    by_cases ha : a ∈ d.entries.map Entry.id
    · have := h a (List.mem_dedup.mpr ha)
      simp at this
      omega
    · rw [List.count_eq_zero_of_not_mem ha]
      omega
  · intro h i _
    have := List.nodup_iff_count_le_one.mp h i
    simp
    omega

/-- The orphan-category pass produces no warning exactly when every
declared category is referenced by some entry. -/
theorem orphanCategoryFindings_eq_nil (d : Dataset) :
    orphanCategoryFindings d = [] ↔
      ∀ c ∈ d.categories, ∃ e ∈ d.entries, c ∈ e.categories := by
  unfold orphanCategoryFindings
  rw [List.map_eq_nil_iff, List.filter_eq_nil_iff]
  simp [List.any_eq_true]

/-- The orphan-tag pass produces no warning exactly when every declared
tag is referenced by some entry. -/
theorem orphanTagFindings_eq_nil (d : Dataset) :
    orphanTagFindings d = [] ↔
      ∀ t ∈ d.tags, ∃ e ∈ d.entries, t ∈ e.tags := by
  unfold orphanTagFindings
  rw [List.map_eq_nil_iff, List.filter_eq_nil_iff]
  simp [List.any_eq_true]

/-- Claim C10: every doctor finding carries severity `Error` exactly
when it reports a referential break or a duplicate id, and `Warning`
exactly when it reports an orphan declaration; and the report is empty
exactly when the dataset has resolving references, pairwise distinct
ids and no orphan declarations. -/
theorem validator_severity_and_empty_report (d : Dataset) :
    (∀ f ∈ doctor d, (f.severity = Severity.error ↔ f.isBreakage = true)) ∧
      (doctor d = [] ↔
        ((∀ e ∈ d.entries, (∀ c ∈ e.categories, c ∈ d.categories) ∧
            (∀ t ∈ e.tags, t ∈ d.tags)) ∧
          (d.entries.map Entry.id).Nodup ∧
          (∀ c ∈ d.categories, ∃ e ∈ d.entries, c ∈ e.categories) ∧
          (∀ t ∈ d.tags, ∃ e ∈ d.entries, t ∈ e.tags))) := by
  constructor
  · intro f _
    cases f <;> simp [Finding.severity, Finding.isBreakage]
  · unfold doctor
    rw [List.append_eq_nil, List.append_eq_nil, List.append_eq_nil,
      List.append_eq_nil]
    rw [danglingCategoryFindings_eq_nil, danglingTagFindings_eq_nil,
      duplicateIdFindings_eq_nil, orphanCategoryFindings_eq_nil,
      orphanTagFindings_eq_nil]
    constructor
    · rintro ⟨⟨⟨⟨h1, h2⟩, h3⟩, h4⟩, h5⟩
      exact ⟨fun e he => ⟨h1 e he, h2 e he⟩, h3, h4, h5⟩
    · rintro ⟨h12, h3, h4, h5⟩
      exact ⟨⟨⟨⟨fun e he => (h12 e he).1, fun e he => (h12 e he).2⟩, h3⟩, h4⟩, h5⟩

/-- Witness for C10: the example dataset is healthy, so its doctor
report is empty. -/
theorem validator_severity_and_empty_report_witness :
    doctor dsExample = [] :=
  (validator_severity_and_empty_report dsExample).2.mpr
    ⟨by decide, by decide, by decide, by decide⟩

end Jfp
